import Mathlib

/-! Verification of the Delta Elektronika ES030-5 Arduino controller firmware
(`deltacode.ino`).  The firmware is a single loop that drains at most one
serial command line per iteration, updates a set of global runtime
variables, and then runs either the PSU-mode update or the
function-generator-mode update.

The shallow embedding below translates the source directly:
* the global runtime variables (`MODE`, `VOLTAGE`, `LAST_VOLTAGE`, ...)
  become the fields of `State`;
* Arduino `map` is long arithmetic with C truncated division (`Int.tdiv`);
* `String::substring` / `indexOf` / `toInt` (atol) are modelled on
  `String.data`;
* `Serial.println` output becomes a list of emitted lines;
* DAC writes become a list of `DacWrite` events;
* `millis()` is an explicit `ms : Nat` argument, the CC-status pin an
  explicit `Bool`, and the float trigonometry of the waveform generator is
  idealised over `ℝ` (those definitions are the only noncomputable ones).
-/

/-- Constant `CONFIRMATION` (true in the source). -/
def CONFIRMATION : Bool := true

/-- Constant `CONFIRMATION_MESSAGE`. -/
def CONFIRMATION_MESSAGE : String := "OK"

/-- Constant `USE_CORRECTION_FACTOR` (false in the source). -/
def USE_CORRECTION_FACTOR : Bool := false

/-- Runtime variable `CORRECTION_FACTOR`: only ever written in `setup` and
only when `USE_CORRECTION_FACTOR` is set, so it stays at its initial 0. -/
def CORRECTION_FACTOR : Int := 0

def VOLTAGE_MIN : Int := 0
def VOLTAGE_MAX : Int := 30000
def CURRENT_MIN : Int := 0
def CURRENT_MAX : Int := 5000
def FREQ_MIN : Int := 0
def FREQ_MAX : Int := 50
def AMP_MIN : Int := 0
def AMP_MAX : Int := 30000
def OFFSET_MIN : Int := 0
def OFFSET_MAX : Int := 30000
def WAVEFORM_MIN : Int := 0
def WAVEFORM_MAX : Int := 3

/-- The mutable global runtime variables of the sketch.  `MEASURED_VOLTAGE`
and `MEASURED_CURRENT` are written from `analogRead` and never read
anywhere, so they are omitted; `rsd` models the level written to the
remote-shutdown pin `RSD_PIN`. -/
structure State where
  rsd : Bool
  mode : Int
  lastVoltage : Int
  voltage : Int
  lastCurrent : Int
  current : Int
  lastWaveform : Int
  waveform : Int
  lastFreq : Int
  freq : Int
  lastAmp : Int
  amp : Int
  lastOffset : Int
  offset : Int
  deriving DecidableEq, Repr

/-- Initial values of the runtime variables (top of the sketch). -/
def initState : State :=
  { rsd := false
    mode := 0
    lastVoltage := 0
    voltage := 0
    lastCurrent := 0
    current := 0
    lastWaveform := 0
    waveform := 0
    lastFreq := 0
    freq := 10
    lastAmp := 0
    amp := 1000
    lastOffset := 0
    offset := 0 }

/-- Arduino `map(x, in_min, in_max, out_min, out_max)`: long arithmetic,
C division truncating toward zero. -/
def arduinoMap (x inMin inMax outMin outMax : Int) : Int :=
  Int.tdiv ((x - inMin) * (outMax - outMin)) (inMax - inMin) + outMin

/-- The `map_input_voltage` function; returns `float` in C but the value is an exact
(small) integer, so it is modelled as `Int`. -/
def map_input_voltage (input : Int) : Int :=
  arduinoMap input VOLTAGE_MIN VOLTAGE_MAX 0 4095

/-- The `map_input_current` function. -/
def map_input_current (input : Int) : Int :=
  arduinoMap input CURRENT_MIN CURRENT_MAX 0 4095

/-- The `map_output_voltage` function. -/
def map_output_voltage (output : Int) : Int :=
  arduinoMap output 0 4095 VOLTAGE_MIN VOLTAGE_MAX

/-- The `map_output_current` function. -/
def map_output_current (output : Int) : Int :=
  arduinoMap output 0 4095 CURRENT_MIN CURRENT_MAX

/-- Printing a `float` value that is integral via `Serial.println`: the default
Arduino float printing shows two decimals. -/
def printFloat (n : Int) : String := toString n ++ ".00"

/-- Characters skipped by `atol` before the number. -/
def isSpaceChar (c : Char) : Bool :=
  c == ' ' || c == '\t' || c == '\n' || c == '\r'

/-- Digit-consuming loop of `atol`: accumulates decimal digits, stops at
the first non-digit. -/
def atolDigits : List Char → Int → Int
  | [], acc => acc
  | c :: cs, acc =>
    if c.isDigit then atolDigits cs (10 * acc + ((c.toNat : Int) - 48))
    else acc

/-- Arduino `String.toInt`, i.e. C `atol`: skip whitespace, optional
sign, then digits; a string with no leading digits yields 0. -/
def strToInt (s : String) : Int :=
  match s.data.dropWhile isSpaceChar with
  | '-' :: rest => - atolDigits rest 0
  | '+' :: rest => atolDigits rest 0
  | cs => atolDigits cs 0

/-- The tokenization in `read_commands`:
`command = input.substring(0, input.indexOf(' '))` and
`value = input.substring(input.indexOf(' ') + 1)`.  When the line holds no
space, `indexOf` returns −1; Arduino `substring` swaps/clamps the
out-of-range bound, so both `command` and `value` are the whole line. -/
def splitCommand (input : String) : String × String :=
  match input.data.findIdx? (fun c => c == ' ') with
  | none => (input, input)
  | some i => (String.mk (input.data.take i), String.mk (input.data.drop (i + 1)))

/-- The `if/else` dispatch chain in `read_commands`, acting on the parsed
`command` and `value` strings.  Returns the new state and the lines
printed by the dispatched branch. -/
def execute_command (st : State) (command value : String) : State × List String :=
  if command = "r" then ({ st with rsd := true }, [])
  else if command = "s" then ({ st with rsd := false }, [])
  else if command = "sv" then
    let new_voltage := strToInt value
    if new_voltage < VOLTAGE_MIN ∨ new_voltage > VOLTAGE_MAX then
      (st, ["err: 1 Voltage out of bounds"])
    else
      ({ st with voltage := map_input_voltage new_voltage }, [])
  else if command = "sc" then
    let new_current := strToInt value
    if new_current < CURRENT_MIN ∨ new_current > CURRENT_MAX then
      (st, ["err: 1 Current out of bounds"])
    else
      ({ st with current := map_input_current new_current }, [])
  else if command = "gv" then
    (st, [printFloat (map_output_voltage st.lastVoltage)])
  else if command = "gc" then
    (st, [printFloat (map_output_current st.lastCurrent)])
  else if command = "sm" then
    let new_mode := strToInt value
    if new_mode < 0 ∨ new_mode > 1 then
      (st, ["err: 1 Mode out of bounds"])
    else
      ({ st with mode := new_mode }, [])
  else if command = "gm" then
    (st, [toString st.mode])
  else if command = "sf" then
    let new_freq := strToInt value
    if new_freq < FREQ_MIN ∨ new_freq > FREQ_MAX then
      (st, ["err: 1 Frequency out of bounds"])
    else
      ({ st with freq := new_freq }, [])
  else if command = "gf" then
    (st, [toString st.lastFreq])
  else if command = "sa" then
    let new_amp := map_input_voltage (strToInt value)
    if new_amp + st.offset > 4095 then
      (st, ["err: 1 Amplitude + Offset is greater than 30 V"])
    else
      ({ st with amp := new_amp }, [])
  else if command = "ga" then
    (st, [printFloat (map_output_voltage st.lastAmp)])
  else if command = "so" then
    let new_offset := map_input_voltage (strToInt value)
    if new_offset + st.amp > 4095 then
      (st, ["err: 1 Amplitude + Offset is greater than 30 V"])
    else
      ({ st with offset := new_offset }, [])
  else if command = "go" then
    (st, [printFloat (map_output_voltage st.lastOffset)])
  else if command = "sw" then
    let waveform := strToInt value
    if waveform < WAVEFORM_MIN ∨ waveform > WAVEFORM_MAX then
      (st, ["err: 1 Waveform out of bounds"])
    else
      ({ st with waveform := waveform }, [])
  else if command = "gw" then
    (st, [toString st.waveform])
  else
    (st, ["err: Unknown command " ++ command ++ "!"])

/-- The `read_commands` handler applied to one available input line: tokenize, run the
dispatch chain, and (since `CONFIRMATION` is set) append the
acknowledgement line `command + " " + value + " " + CONFIRMATION_MESSAGE`. -/
def read_commands (st : State) (input : String) : State × List String :=
  let command := (splitCommand input).1
  let value := (splitCommand input).2
  let r := execute_command st command value
  if CONFIRMATION then
    (r.1, r.2 ++ [command ++ " " ++ value ++ " " ++ CONFIRMATION_MESSAGE])
  else r

/-- A write of a native code to one of the two MCP4725 DACs. -/
inductive DacWrite where
  | voltageDac (code : Int)
  | currentDac (code : Int)
  deriving DecidableEq, Repr

/-- The `execute_psu_mode` update (the `update_monitor_readings` call only writes the
two unread `MEASURED_*` variables and is dropped): push `VOLTAGE` /
`CURRENT` to the DACs when they differ from the `LAST_*` copies.
`USE_CORRECTION_FACTOR` is false so the correction branch is dead. -/
def execute_psu_mode (st : State) : State × List DacWrite :=
  let p1 : State × List DacWrite :=
    if st.voltage ≠ st.lastVoltage then
      let output := if USE_CORRECTION_FACTOR then st.voltage * CORRECTION_FACTOR else st.voltage
      ({ st with lastVoltage := st.voltage }, [DacWrite.voltageDac output])
    else (st, [])
  let st1 := p1.1
  let p2 : State × List DacWrite :=
    if st1.current ≠ st1.lastCurrent then
      let output := if USE_CORRECTION_FACTOR then st1.current * CORRECTION_FACTOR else st1.current
      ({ st1 with lastCurrent := st1.current }, [DacWrite.currentDac output])
    else (st1, [])
  (p2.1, p1.2 ++ p2.2)

/-- The `cal_sine` waveform: the float trigonometry is idealised over `ℝ`; `millis()`
is the explicit argument `ms` and `millis() * 1e-3` becomes
`ms * (1/1000)`. -/
noncomputable def cal_sine (freq amplitude offset : Int) (ms : Nat) : ℝ :=
  Real.sin (2 * Real.pi * ms * (1 / 1000) * freq) * amplitude + offset

open scoped Classical in
/-- The `cal_square` waveform. -/
noncomputable def cal_square (freq amplitude offset : Int) (ms : Nat) : ℝ :=
  if Real.sin (2 * Real.pi * ms * (1 / 1000) * freq) > 0 then
    (amplitude : ℝ) + offset
  else (offset : ℝ)

/-- The `cal_triangle` waveform. -/
noncomputable def cal_triangle (freq amplitude offset : Int) (ms : Nat) : ℝ :=
  (2 * (amplitude : ℝ) / Real.pi) * Real.arcsin (Real.sin (2 * Real.pi * ms * (1 / 1000) * freq)) + offset

/-- The `cal_sawtooth` waveform. -/
noncomputable def cal_sawtooth (freq amplitude offset : Int) (ms : Nat) : ℝ :=
  (2 * (amplitude : ℝ) / Real.pi) * Real.arctan (Real.tan (2 * Real.pi * ms * (1 / 1000) * freq)) + offset

open scoped Classical in
/-- C `float`-to-`int` conversion: truncation toward zero. -/
noncomputable def realTruncToInt (x : ℝ) : Int :=
  if 0 ≤ x then ⌊x⌋ else ⌈x⌉

open scoped Classical in
/-- The `execute_function_generator_mode` update: synchronize the `LAST_*` waveform
fields, compute the sample for the active waveform (`int output = 0` and
the `switch` leave 0 for an out-of-range waveform code), hand it to the
voltage DAC, then report `err: 2` while the CC-status pin reads high.
`update_monitor_readings` is dropped as in `execute_psu_mode`. -/
noncomputable def execute_function_generator_mode (st : State) (ms : Nat) (ccFlag : Bool) :
    State × List DacWrite × List String :=
  let st1 :=
    if st.lastFreq ≠ st.freq ∨ st.lastAmp ≠ st.amp ∨ st.lastOffset ≠ st.offset ∨
        st.lastWaveform ≠ st.waveform then
      { st with lastFreq := st.freq, lastAmp := st.amp, lastOffset := st.offset,
                lastWaveform := st.waveform }
    else st
  let output : Int :=
    if st1.waveform = 0 then realTruncToInt (cal_sine st1.freq st1.amp st1.offset ms)
    else if st1.waveform = 1 then realTruncToInt (cal_square st1.freq st1.amp st1.offset ms)
    else if st1.waveform = 2 then realTruncToInt (cal_triangle st1.freq st1.amp st1.offset ms)
    else if st1.waveform = 3 then realTruncToInt (cal_sawtooth st1.freq st1.amp st1.offset ms)
    else 0
  let output := if USE_CORRECTION_FACTOR then output * CORRECTION_FACTOR else output
  (st1, [DacWrite.voltageDac output],
    if ccFlag then ["err: 2 Current limit reached"] else [])

/-- One iteration of `loop`: drain at most one command line, then dispatch
on `MODE`.  `line = none` models no serial input being available. -/
noncomputable def loop (st : State) (line : Option String) (ms : Nat) (ccFlag : Bool) :
    State × List DacWrite × List String :=
  let c :=
    match line with
    | none => (st, ([] : List String))
    | some input => read_commands st input
  let st1 := c.1
  if st1.mode = 0 then
    let p := execute_psu_mode st1
    (p.1, p.2, c.2)
  else if st1.mode = 1 then
    let r := execute_function_generator_mode st1 ms ccFlag
    (r.1, r.2.1, c.2 ++ r.2.2)
  else
    (st1, [], c.2 ++ ["err: 0 Unknown mode"])

/-- One firmware step: some (possibly absent) input line, some clock value
and some CC-pin level take `st` to `st'`. -/
def Step (st st' : State) : Prop :=
  ∃ line ms ccFlag, st' = (loop st line ms ccFlag).1

/-- States reachable from power-on by iterating `loop`. -/
def Reachable (st : State) : Prop :=
  Relation.ReflTransGen Step initState st

/-- Round-half-away-from-zero on rationals, as the spec's stated rounding
policy for `toNative` (modelled from the spec for comparison with the
implementation). -/
def roundHalfAwayFromZero (q : ℚ) : ℤ :=
  if 0 ≤ q then ⌊q + 1 / 2⌋ else -⌊-q + 1 / 2⌋

/-- A function-generator state: sine waveform, 1 Hz, full-scale amplitude
(the staging of `sa 30000` from a zero offset), zero offset, `LAST_*`
fields already reconciled. -/
def fgState : State :=
  { rsd := false
    mode := 1
    lastVoltage := 0
    voltage := 0
    lastCurrent := 0
    current := 0
    lastWaveform := 0
    waveform := 0
    lastFreq := 1
    freq := 1
    lastAmp := 4095
    amp := 4095
    lastOffset := 0
    offset := 0 }

/-! Helper lemmas about the command dispatcher. -/

/-- Any dispatched command either leaves `MODE` unchanged or stores a value
in `[0, 1]` (the `sm` bounds check), and either leaves `AMP`/`OFFSET`
unchanged or re-establishes `AMP + OFFSET ≤ 4095` (the `sa`/`so` sum
check). -/
lemma execute_command_inv (st : State) (c v : String) (st' : State) (out : List String)
    (h : execute_command st c v = (st', out)) :
    (st'.mode = st.mode ∨ (0 ≤ st'.mode ∧ st'.mode ≤ 1)) ∧
    ((st'.amp = st.amp ∧ st'.offset = st.offset) ∨ st'.amp + st'.offset ≤ 4095) := by
  unfold execute_command at h
  by_cases h1 : c = "r"
  · rw [if_pos h1] at h
    injection h with hs ho
    subst hs
    exact ⟨Or.inl rfl, Or.inl ⟨rfl, rfl⟩⟩
  rw [if_neg h1] at h
  by_cases h2 : c = "s"
  · rw [if_pos h2] at h
    injection h with hs ho
    subst hs
    exact ⟨Or.inl rfl, Or.inl ⟨rfl, rfl⟩⟩
  rw [if_neg h2] at h
  by_cases h3 : c = "sv"
  · rw [if_pos h3] at h
    simp only [] at h
    split at h
    all_goals injection h with hs ho
    all_goals subst hs
    all_goals exact ⟨Or.inl rfl, Or.inl ⟨rfl, rfl⟩⟩
  rw [if_neg h3] at h
  by_cases h4 : c = "sc"
  · rw [if_pos h4] at h
    simp only [] at h
    split at h
    all_goals injection h with hs ho
    all_goals subst hs
    all_goals exact ⟨Or.inl rfl, Or.inl ⟨rfl, rfl⟩⟩
  rw [if_neg h4] at h
  by_cases h5 : c = "gv"
  · rw [if_pos h5] at h
    injection h with hs ho
    subst hs
    exact ⟨Or.inl rfl, Or.inl ⟨rfl, rfl⟩⟩
  rw [if_neg h5] at h
  by_cases h6 : c = "gc"
  · rw [if_pos h6] at h
    injection h with hs ho
    subst hs
    exact ⟨Or.inl rfl, Or.inl ⟨rfl, rfl⟩⟩
  rw [if_neg h6] at h
  by_cases h7 : c = "sm"
  · rw [if_pos h7] at h
    simp only [] at h
    split at h
    · injection h with hs ho
      subst hs
      exact ⟨Or.inl rfl, Or.inl ⟨rfl, rfl⟩⟩
    · injection h with hs ho
      subst hs
      refine ⟨Or.inr ?_, Or.inl ⟨rfl, rfl⟩⟩
      dsimp only
      omega
  rw [if_neg h7] at h
  by_cases h8 : c = "gm"
  · rw [if_pos h8] at h
    injection h with hs ho
    subst hs
    exact ⟨Or.inl rfl, Or.inl ⟨rfl, rfl⟩⟩
  rw [if_neg h8] at h
  by_cases h9 : c = "sf"
  · rw [if_pos h9] at h
    simp only [] at h
    split at h
    all_goals injection h with hs ho
    all_goals subst hs
    all_goals exact ⟨Or.inl rfl, Or.inl ⟨rfl, rfl⟩⟩
  rw [if_neg h9] at h
  by_cases h10 : c = "gf"
  · rw [if_pos h10] at h
    injection h with hs ho
    subst hs
    exact ⟨Or.inl rfl, Or.inl ⟨rfl, rfl⟩⟩
  rw [if_neg h10] at h
  by_cases h11 : c = "sa"
  · rw [if_pos h11] at h
    simp only [] at h
    split at h
    · injection h with hs ho
      subst hs
      exact ⟨Or.inl rfl, Or.inl ⟨rfl, rfl⟩⟩
    · injection h with hs ho
      subst hs
      refine ⟨Or.inl rfl, Or.inr ?_⟩
      dsimp only
      omega
  rw [if_neg h11] at h
  by_cases h12 : c = "ga"
  · rw [if_pos h12] at h
    injection h with hs ho
    subst hs
    exact ⟨Or.inl rfl, Or.inl ⟨rfl, rfl⟩⟩
  rw [if_neg h12] at h
  by_cases h13 : c = "so"
  · rw [if_pos h13] at h
    simp only [] at h
    split at h
    · injection h with hs ho
      subst hs
      exact ⟨Or.inl rfl, Or.inl ⟨rfl, rfl⟩⟩
    · injection h with hs ho
      subst hs
      refine ⟨Or.inl rfl, Or.inr ?_⟩
      dsimp only
      omega
  rw [if_neg h13] at h
  by_cases h14 : c = "go"
  · rw [if_pos h14] at h
    injection h with hs ho
    subst hs
    exact ⟨Or.inl rfl, Or.inl ⟨rfl, rfl⟩⟩
  rw [if_neg h14] at h
  by_cases h15 : c = "sw"
  · rw [if_pos h15] at h
    simp only [] at h
    split at h
    all_goals injection h with hs ho
    all_goals subst hs
    all_goals exact ⟨Or.inl rfl, Or.inl ⟨rfl, rfl⟩⟩
  rw [if_neg h15] at h
  by_cases h16 : c = "gw"
  · rw [if_pos h16] at h
    injection h with hs ho
    subst hs
    exact ⟨Or.inl rfl, Or.inl ⟨rfl, rfl⟩⟩
  rw [if_neg h16] at h
  injection h with hs ho
  subst hs
  exact ⟨Or.inl rfl, Or.inl ⟨rfl, rfl⟩⟩

/-- The PSU update only reconciles `LAST_VOLTAGE`/`LAST_CURRENT` with the
staged values. -/
lemma execute_psu_mode_fst (st : State) :
    (execute_psu_mode st).1 = { st with lastVoltage := st.voltage, lastCurrent := st.current } := by
  obtain ⟨rsd, mode, lV, V, lC, C, lW, W, lF, F, lA, A, lO, O⟩ := st
  unfold execute_psu_mode
  simp only []
  split_ifs <;> simp_all

/-- The function-generator update only reconciles the `LAST_*` waveform
fields with the staged values. -/
lemma execute_fg_mode_fst (st : State) (ms : Nat) (cc : Bool) :
    (execute_function_generator_mode st ms cc).1 =
      { st with lastFreq := st.freq, lastAmp := st.amp, lastOffset := st.offset,
                lastWaveform := st.waveform } := by
  obtain ⟨rsd, mode, lV, V, lC, C, lW, W, lF, F, lA, A, lO, O⟩ := st
  unfold execute_function_generator_mode
  simp only []
  split_ifs <;> simp_all

/-- The state after `read_commands` is the state after the dispatch chain. -/
lemma read_commands_fst (st : State) (input : String) :
    (read_commands st input).1 =
      (execute_command st (splitCommand input).1 (splitCommand input).2).1 := rfl

/-- One `loop` iteration preserves the invariant
`MODE ∈ {0, 1} ∧ AMP + OFFSET ≤ 4095`. -/
lemma loop_fst_inv (st : State) (line : Option String) (ms : Nat) (cc : Bool)
    (hm : st.mode = 0 ∨ st.mode = 1) (hao : st.amp + st.offset ≤ 4095) :
    ((loop st line ms cc).1.mode = 0 ∨ (loop st line ms cc).1.mode = 1) ∧
    (loop st line ms cc).1.amp + (loop st line ms cc).1.offset ≤ 4095 := by
  have key : ∀ st1 : State, (st1.mode = 0 ∨ st1.mode = 1) → st1.amp + st1.offset ≤ 4095 →
      ∀ r : State,
        (r = (execute_psu_mode st1).1 ∨ r = (execute_function_generator_mode st1 ms cc).1 ∨ r = st1) →
        ((r.mode = 0 ∨ r.mode = 1) ∧ r.amp + r.offset ≤ 4095) := by
    intro st1 h1 h2 r hr
    rcases hr with hr | hr | hr
    · rw [hr, execute_psu_mode_fst]
      exact ⟨h1, h2⟩
    · rw [hr, execute_fg_mode_fst]
      exact ⟨h1, h2⟩
    · rw [hr]
      exact ⟨h1, h2⟩
  rcases line with _ | input
  · unfold loop
    simp only []
    split_ifs with hA hB
    · exact key st hm hao _ (Or.inl rfl)
    · exact key st hm hao _ (Or.inr (Or.inl rfl))
    · exact key st hm hao _ (Or.inr (Or.inr rfl))
  · unfold loop
    simp only []
    have hinv := execute_command_inv st (splitCommand input).1 (splitCommand input).2
        (execute_command st (splitCommand input).1 (splitCommand input).2).1
        (execute_command st (splitCommand input).1 (splitCommand input).2).2 rfl
    rw [← read_commands_fst] at hinv
    have hm1 : (read_commands st input).1.mode = 0 ∨ (read_commands st input).1.mode = 1 := by
      rcases hinv.1 with h | h
      · rw [h]; exact hm
      · omega
    have hao1 : (read_commands st input).1.amp + (read_commands st input).1.offset ≤ 4095 := by
      rcases hinv.2 with ⟨h1, h2⟩ | h
      · rw [h1, h2]; exact hao
      · exact h
    split_ifs with hA hB
    · exact key _ hm1 hao1 _ (Or.inl rfl)
    · exact key _ hm1 hao1 _ (Or.inr (Or.inl rfl))
    · exact key _ hm1 hao1 _ (Or.inr (Or.inr rfl))

/-- The firmware invariant: in every reachable state the mode is 0 or 1
and the native amplitude and offset sum to at most full scale. -/
lemma reachable_inv (st : State) (h : Reachable st) :
    (st.mode = 0 ∨ st.mode = 1) ∧ st.amp + st.offset ≤ 4095 := by
  induction h with
  | refl =>
    constructor
    · left
      rfl
    · decide
  | tail hab hbc ih =>
    obtain ⟨line, ms, cc, rfl⟩ := hbc
    exact loop_fst_inv _ line ms cc ih.1 ih.2

/-! Helper lemmas about tokenization and specific command lines. -/

/-- A line `sv <arg>` tokenizes into verb `sv` and the argument string. -/
lemma splitCommand_sv (s : String) : splitCommand ("sv " ++ s) = ("sv", s) := by
  obtain ⟨l⟩ := s
  simp [splitCommand, String.data_append, List.findIdx?]

/-- A line `sa <arg>` tokenizes into verb `sa` and the argument string. -/
lemma splitCommand_sa (s : String) : splitCommand ("sa " ++ s) = ("sa", s) := by
  obtain ⟨l⟩ := s
  simp [splitCommand, String.data_append, List.findIdx?]

/-- A line `so <arg>` tokenizes into verb `so` and the argument string. -/
lemma splitCommand_so (s : String) : splitCommand ("so " ++ s) = ("so", s) := by
  obtain ⟨l⟩ := s
  simp [splitCommand, String.data_append, List.findIdx?]

/-- A line with no space character at all tokenizes into the whole line
twice (Arduino `substring` clamps the −1 from the failed `indexOf`). -/
lemma splitCommand_no_space (s : String) (h : ∀ c ∈ s.data, c ≠ ' ') :
    splitCommand s = (s, s) := by
  unfold splitCommand
  have hnone : s.data.findIdx? (fun c => c == ' ') = none := by
    rw [List.findIdx?_eq_none_iff]
    intro c hc
    simp [h c hc]
  rw [hnone]

lemma conf_line_sv (s : String) : "sv" ++ " " ++ s ++ " " ++ "OK" = "sv " ++ s ++ " OK" := by
  apply String.ext
  simp [String.data_append]

lemma conf_line_sa (s : String) : "sa" ++ " " ++ s ++ " " ++ "OK" = "sa " ++ s ++ " OK" := by
  apply String.ext
  simp [String.data_append]

lemma conf_line_so (s : String) : "so" ++ " " ++ s ++ " " ++ "OK" = "so " ++ s ++ " OK" := by
  apply String.ext
  simp [String.data_append]

/-- Full behavior of an `sv` line: bounds check on the raw millivolt
argument, then staging of the mapped native code. -/
lemma read_commands_sv (st : State) (s : String) :
    read_commands st ("sv " ++ s) =
      (if strToInt s < VOLTAGE_MIN ∨ strToInt s > VOLTAGE_MAX then
        (st, ["err: 1 Voltage out of bounds", "sv " ++ s ++ " OK"])
      else ({ st with voltage := map_input_voltage (strToInt s) }, ["sv " ++ s ++ " OK"])) := by
  unfold read_commands
  rw [splitCommand_sv]
  show (let r := execute_command st "sv" s
        if CONFIRMATION then (r.1, r.2 ++ ["sv" ++ " " ++ s ++ " " ++ "OK"]) else r) = _
  rw [show (execute_command st "sv" s) =
      (if strToInt s < VOLTAGE_MIN ∨ strToInt s > VOLTAGE_MAX then
        (st, ["err: 1 Voltage out of bounds"])
      else ({ st with voltage := map_input_voltage (strToInt s) }, [])) from rfl]
  simp only [CONFIRMATION, if_true, conf_line_sv]
  split_ifs <;> simp

/-- Full behavior of an `sa` line: the only check is the cross-field sum
check on the already-mapped native code; the raw argument is never
compared against `AMP_MIN`/`AMP_MAX`. -/
lemma read_commands_sa (st : State) (s : String) :
    read_commands st ("sa " ++ s) =
      (if map_input_voltage (strToInt s) + st.offset > 4095 then
        (st, ["err: 1 Amplitude + Offset is greater than 30 V", "sa " ++ s ++ " OK"])
      else ({ st with amp := map_input_voltage (strToInt s) }, ["sa " ++ s ++ " OK"])) := by
  unfold read_commands
  rw [splitCommand_sa]
  show (let r := execute_command st "sa" s
        if CONFIRMATION then (r.1, r.2 ++ ["sa" ++ " " ++ s ++ " " ++ "OK"]) else r) = _
  rw [show (execute_command st "sa" s) =
      (if map_input_voltage (strToInt s) + st.offset > 4095 then
        (st, ["err: 1 Amplitude + Offset is greater than 30 V"])
      else ({ st with amp := map_input_voltage (strToInt s) }, [])) from rfl]
  simp only [CONFIRMATION, if_true, conf_line_sa]
  split_ifs <;> simp

/-- Full behavior of an `so` line, symmetric to `sa`. -/
lemma read_commands_so (st : State) (s : String) :
    read_commands st ("so " ++ s) =
      (if map_input_voltage (strToInt s) + st.amp > 4095 then
        (st, ["err: 1 Amplitude + Offset is greater than 30 V", "so " ++ s ++ " OK"])
      else ({ st with offset := map_input_voltage (strToInt s) }, ["so " ++ s ++ " OK"])) := by
  unfold read_commands
  rw [splitCommand_so]
  show (let r := execute_command st "so" s
        if CONFIRMATION then (r.1, r.2 ++ ["so" ++ " " ++ s ++ " " ++ "OK"]) else r) = _
  rw [show (execute_command st "so" s) =
      (if map_input_voltage (strToInt s) + st.amp > 4095 then
        (st, ["err: 1 Amplitude + Offset is greater than 30 V"])
      else ({ st with offset := map_input_voltage (strToInt s) }, [])) from rfl]
  simp only [CONFIRMATION, if_true, conf_line_so]
  split_ifs <;> simp

/-! Numeric helper lemmas. -/

/-- The user-to-native-to-user voltage round trip loses at most 8 mV and
never overshoots: one truncated native code (⌈30000/4095⌉ − 1 ≈ 7.33 mV)
plus up to 1 mV truncated by the display conversion. -/
lemma voltage_roundtrip_bound (v : Int) (h0 : 0 ≤ v) :
    v - 8 ≤ map_output_voltage (map_input_voltage v) ∧
    map_output_voltage (map_input_voltage v) ≤ v := by
  unfold map_output_voltage map_input_voltage arduinoMap VOLTAGE_MIN VOLTAGE_MAX
  simp only [sub_zero, add_zero]
  have hc : (v * 4095).tdiv 30000 = (v * 4095) / 30000 :=
    Int.tdiv_eq_ediv (by positivity) (by norm_num)
  rw [hc]
  have hnn : 0 ≤ v * 4095 / 30000 * 30000 :=
    mul_nonneg (Int.ediv_nonneg (by positivity) (by norm_num)) (by norm_num)
  have hc2 : (v * 4095 / 30000 * 30000).tdiv 4095 = v * 4095 / 30000 * 30000 / 4095 :=
    Int.tdiv_eq_ediv hnn (by norm_num)
  rw [hc2]
  omega


/-! Helper lemmas about the waveform generator. -/

/-- At `millis() = 750` with frequency 1 Hz the sine argument is 3π/2, so
a full-scale amplitude with zero offset yields the sample −4095. -/
lemma cal_sine_trough : realTruncToInt (cal_sine 1 4095 0 750) = -4095 := by
  have harg : 2 * Real.pi * ((750 : Nat) : ℝ) * (1 / 1000) * (((1 : Int)) : ℝ) =
      Real.pi + Real.pi / 2 := by
    push_cast
    ring
  have hval : cal_sine 1 4095 0 750 = ((-4095 : Int) : ℝ) := by
    unfold cal_sine
    rw [harg, Real.sin_add_pi_div_two, Real.cos_pi]
    push_cast
    ring
  rw [hval]
  unfold realTruncToInt
  rw [if_neg (by norm_num), Int.ceil_intCast]

/-- The function-generator update at `fgState` and `millis() = 750` hands
the raw sample −4095 to the voltage DAC. -/
lemma fg_write_trough :
    (execute_function_generator_mode fgState 750 false).2.1 = [DacWrite.voltageDac (-4095)] := by
  unfold execute_function_generator_mode
  simp only [fgState]
  norm_num
  rw [cal_sine_trough]
  simp [USE_CORRECTION_FACTOR]

/-! The claims. -/

/-- C1 (counterexample): the function-generator update is NOT clamped to
`[0, 4095]`: from a reachable sine configuration (full-scale amplitude,
zero offset, 1 Hz) at `millis() = 750` the value handed to the voltage
DAC is −4095, outside the native range. -/
theorem claim_C1_counterexample :
    (execute_function_generator_mode fgState 750 false).2.1 = [DacWrite.voltageDac (-4095)] ∧
    ¬ (0 ≤ (-4095 : Int) ∧ (-4095 : Int) ≤ 4095) :=
  ⟨fg_write_trough, by decide⟩

/-- C1 (amended): the function-generator update hands the computed sample
to the voltage DAC without any clamping (it can be negative, e.g. −4095
for a full-scale sine at its trough), and waveform evaluation itself never
emits an error line — the only error, `err: 2`, comes from the
current-limit flag. -/
theorem claim_C1_amended :
    (∀ (st : State) (ms : Nat) (cc : Bool),
      (execute_function_generator_mode st ms cc).2.2 =
        if cc then ["err: 2 Current limit reached"] else []) ∧
    (∃ (st : State) (ms : Nat),
      (execute_function_generator_mode st ms false).2.1 = [DacWrite.voltageDac (-4095)]) :=
  ⟨fun _ _ _ => rfl, ⟨fgState, 750, fg_write_trough⟩⟩

/-- C2 (counterexample): `sa 30001` — argument outside `[0, 30000]` mV —
is NOT rejected: from the initial state it is accepted with no `err: 1`
line and mutates the amplitude field (1000 → 4095). -/
theorem claim_C2_counterexample :
    read_commands initState "sa 30001" = ({ initState with amp := 4095 }, ["sa 30001 OK"]) ∧
    (30001 : Int) > 30000 ∧ ({ initState with amp := 4095 } : State).amp ≠ initState.amp :=
  ⟨by decide, by decide, by decide⟩

/-- C2 (amended): `sa` and `so` never compare the raw millivolt argument
against `[0, 30000]`; the only check is that the already-mapped native
code plus the other field stays ≤ 4095.  When that sum check passes the
command is accepted (even for out-of-range arguments such as 30001 or −1),
and when it fails the command is rejected with `err: 1` leaving the state
unchanged. -/
theorem claim_C2_amended :
    (∀ (st : State) (s : String),
      read_commands st ("sa " ++ s) =
        (if map_input_voltage (strToInt s) + st.offset > 4095 then
          (st, ["err: 1 Amplitude + Offset is greater than 30 V", "sa " ++ s ++ " OK"])
        else ({ st with amp := map_input_voltage (strToInt s) }, ["sa " ++ s ++ " OK"]))) ∧
    (∀ (st : State) (s : String),
      read_commands st ("so " ++ s) =
        (if map_input_voltage (strToInt s) + st.amp > 4095 then
          (st, ["err: 1 Amplitude + Offset is greater than 30 V", "so " ++ s ++ " OK"])
        else ({ st with offset := map_input_voltage (strToInt s) }, ["so " ++ s ++ " OK"]))) :=
  ⟨read_commands_sa, read_commands_so⟩

/-- C3 (counterexample): after `sv 29` is applied, `gv` prints 21.00 —
an error of 8 mV, which exceeds one native code's worth
(30000/4095 ≈ 7.33 mV). -/
theorem claim_C3_counterexample :
    (read_commands ((execute_psu_mode ((read_commands initState "sv 29").1)).1) "gv").2 =
      ["21.00", "gv gv OK"] ∧
    ¬ ((29 - 21 : ℚ) ≤ 30000 / 4095) :=
  ⟨by decide, by norm_num⟩

/-- C3 (amended): for `v ∈ [0, 30000]`, after an accepted `sv v` and a
PSU-mode update, `gv` prints the round-tripped value, which is at most
`v` and at least `v − 8` (one truncated native code ≈ 7.33 mV plus up to
1 mV lost to the truncating display conversion). -/
theorem claim_C3_amended (st : State) (s : String) (v : Int)
    (hs : strToInt s = v) (h0 : 0 ≤ v) (h1 : v ≤ 30000) :
    (read_commands ((execute_psu_mode ((read_commands st ("sv " ++ s)).1)).1) "gv").2 =
      [printFloat (map_output_voltage (map_input_voltage v)), "gv gv OK"] ∧
    v - 8 ≤ map_output_voltage (map_input_voltage v) ∧
    map_output_voltage (map_input_voltage v) ≤ v := by
  subst hs
  have hpair := read_commands_sv st s
  rw [if_neg (by unfold VOLTAGE_MIN VOLTAGE_MAX; omega)] at hpair
  rw [hpair]
  rw [execute_psu_mode_fst]
  exact ⟨rfl, voltage_roundtrip_bound (strToInt s) h0⟩

/-- C3 (witness): the amended claim instantiated at `sv 29` from the
initial state. -/
theorem claim_C3_witness :
    strToInt "29" = 29 ∧ (0 : Int) ≤ 29 ∧ (29 : Int) ≤ 30000 ∧
    ((read_commands ((execute_psu_mode ((read_commands initState ("sv " ++ "29")).1)).1) "gv").2 =
      [printFloat (map_output_voltage (map_input_voltage 29)), "gv gv OK"] ∧
    29 - 8 ≤ map_output_voltage (map_input_voltage 29) ∧
    map_output_voltage (map_input_voltage 29) ≤ 29) :=
  ⟨by decide, by decide, by decide,
   claim_C3_amended initState "29" 29 (by decide) (by decide) (by decide)⟩

/-- C4 (counterexample): at input 4 mV the implementation returns native
code 0 while round-half-away-from-zero of (4 − 0)/(30000 − 0)·4095 ≈ 0.546
is 1: the conversion truncates instead of rounding. -/
theorem claim_C4_counterexample :
    map_input_voltage 4 = 0 ∧
    roundHalfAwayFromZero ((4 - 0) / (30000 - 0) * 4095) = 1 ∧ (0 : Int) ≠ 1 :=
  ⟨by decide, by norm_num [roundHalfAwayFromZero], by decide⟩

/-- C4 (amended): for nonnegative user values the user-to-native voltage
conversion truncates: it equals the floor of `v·4095/30000`, not the
half-away-from-zero rounding of it. -/
theorem claim_C4_amended (v : Int) (h0 : 0 ≤ v) :
    map_input_voltage v = ⌊((v * 4095 : ℤ) : ℚ) / 30000⌋ := by
  unfold map_input_voltage arduinoMap VOLTAGE_MIN VOLTAGE_MAX
  simp only [sub_zero, add_zero]
  rw [Int.tdiv_eq_ediv (by positivity) (by norm_num)]
  rw [show ((30000 : ℚ)) = ((30000 : ℕ) : ℚ) from by norm_num]
  rw [Rat.floor_intCast_div_natCast]
  norm_num

/-- C4 (witness): the amended claim instantiated at 4 mV. -/
theorem claim_C4_witness :
    (0 : Int) ≤ 4 ∧ map_input_voltage 4 = ⌊((4 * 4095 : ℤ) : ℚ) / 30000⌋ :=
  ⟨by decide, claim_C4_amended 4 (by decide)⟩

/-- C5 (code evaluation at the failing input): an unknown verb `zz` leaves
the state untouched and prints `err: Unknown command zz!` — without the
numeric error code 0 promised by the sketch's own ERROR CODES comment —
followed by the confirmation line containing the verb. -/
theorem claim_C5_behavior (st : State) :
    read_commands st "zz" = (st, ["err: Unknown command zz!", "zz zz OK"]) := rfl

/-- C6 (counterexample): `gw` does NOT read the last-applied waveform.
After staging `sw 2` in PSU mode (so it is never applied), `gw` prints
`2` although the last-applied waveform is still 0. -/
theorem claim_C6_counterexample :
    (read_commands ((read_commands initState "sw 2").1) "gw").2 = ["2", "gw gw OK"] ∧
    ((read_commands initState "sw 2").1).lastWaveform = 0 ∧
    ("2" : String) ≠ toString (0 : Int) :=
  ⟨by decide, by decide, by decide⟩

/-- C6 (amended): the getters `gv`, `gc`, `gf`, `ga`, `go` emit the
last-applied value (converted to user units where the field is scaled),
but `gw` emits the staged `WAVEFORM` variable, not `LAST_WAVEFORM`. -/
theorem claim_C6_amended (st : State) :
    (read_commands st "gv").2 = [printFloat (map_output_voltage st.lastVoltage), "gv gv OK"] ∧
    (read_commands st "gc").2 = [printFloat (map_output_current st.lastCurrent), "gc gc OK"] ∧
    (read_commands st "gf").2 = [toString st.lastFreq, "gf gf OK"] ∧
    (read_commands st "ga").2 = [printFloat (map_output_voltage st.lastAmp), "ga ga OK"] ∧
    (read_commands st "go").2 = [printFloat (map_output_voltage st.lastOffset), "go go OK"] ∧
    (read_commands st "gw").2 = [toString st.waveform, "gw gw OK"] :=
  ⟨rfl, rfl, rfl, rfl, rfl, rfl⟩

/-- C7: an `sv` whose parsed argument is out of `[0, 30000]` leaves the
whole state (both the staged `VOLTAGE` and `LAST_VOLTAGE`) unchanged and
emits the `err: 1` line. -/
theorem claim_C7 (st : State) (s : String) (v : Int)
    (hs : strToInt s = v) (hout : v < 0 ∨ v > 30000) :
    read_commands st ("sv " ++ s) =
      (st, ["err: 1 Voltage out of bounds", "sv " ++ s ++ " OK"]) := by
  subst hs
  have hpair := read_commands_sv st s
  rw [if_pos (by unfold VOLTAGE_MIN VOLTAGE_MAX; omega)] at hpair
  exact hpair

/-- C7 (witness): instantiated at `sv 30001` from the initial state. -/
theorem claim_C7_witness :
    strToInt "30001" = 30001 ∧ ((30001 : Int) < 0 ∨ (30001 : Int) > 30000) ∧
    read_commands initState ("sv " ++ "30001") =
      (initState, ["err: 1 Voltage out of bounds", "sv " ++ "30001" ++ " OK"]) :=
  ⟨by decide, by decide, claim_C7 initState "30001" 30001 (by decide) (by decide)⟩

/-- C8: the cross-field invariant `AMP + OFFSET ≤ 4095` (both stored
natively) holds in every reachable state; an `sa`/`so` whose mapped code
would break it is rejected atomically with `err: 1`; and concretely
`sa 5000` followed by `so 28000` from the initial state rejects the `so`
without changing any field. -/
theorem claim_C8 :
    (∀ st : State, Reachable st → st.amp + st.offset ≤ 4095) ∧
    (∀ (st : State) (s : String), map_input_voltage (strToInt s) + st.offset > 4095 →
      read_commands st ("sa " ++ s) =
        (st, ["err: 1 Amplitude + Offset is greater than 30 V", "sa " ++ s ++ " OK"])) ∧
    (∀ (st : State) (s : String), map_input_voltage (strToInt s) + st.amp > 4095 →
      read_commands st ("so " ++ s) =
        (st, ["err: 1 Amplitude + Offset is greater than 30 V", "so " ++ s ++ " OK"])) ∧
    ((read_commands ((read_commands initState "sa 5000").1) "so 28000").1 =
        (read_commands initState "sa 5000").1 ∧
      ((read_commands ((read_commands initState "sa 5000").1) "so 28000").2).head? =
        some "err: 1 Amplitude + Offset is greater than 30 V") := by
  refine ⟨fun st h => (reachable_inv st h).2, ?_, ?_, by decide, by decide⟩
  · intro st s hgt
    have hpair := read_commands_sa st s
    rw [if_pos hgt] at hpair
    exact hpair
  · intro st s hgt
    have hpair := read_commands_so st s
    rw [if_pos hgt] at hpair
    exact hpair

/-- C8 (witness): the invariant at the initial state and the `sa` reject
at argument 40000 (mapped code 5460). -/
theorem claim_C8_witness :
    initState.amp + initState.offset ≤ 4095 ∧
    read_commands initState ("sa " ++ "40000") =
      (initState, ["err: 1 Amplitude + Offset is greater than 30 V", "sa " ++ "40000" ++ " OK"]) :=
  ⟨claim_C8.1 initState Relation.ReflTransGen.refl,
   claim_C8.2.1 initState "40000" (by decide)⟩

/-- C9: in every reachable state the mode is 0 or 1, and it still is after
draining any command line, so the loop's unknown-mode branch is dead; and
were the mode nevertheless out of range, an iteration with no pending
input would leave the state untouched and only print `err: 0 Unknown
mode`. -/
theorem claim_C9 :
    (∀ st : State, Reachable st → (st.mode = 0 ∨ st.mode = 1)) ∧
    (∀ (st : State) (input : String), Reachable st →
      ((read_commands st input).1.mode = 0 ∨ (read_commands st input).1.mode = 1)) ∧
    (∀ (st : State) (ms : Nat) (cc : Bool), st.mode ≠ 0 → st.mode ≠ 1 →
      loop st none ms cc = (st, [], ["err: 0 Unknown mode"])) := by
  refine ⟨fun st h => (reachable_inv st h).1, ?_, ?_⟩
  · intro st input h
    have hm := (reachable_inv st h).1
    have hinv := execute_command_inv st (splitCommand input).1 (splitCommand input).2
        (execute_command st (splitCommand input).1 (splitCommand input).2).1
        (execute_command st (splitCommand input).1 (splitCommand input).2).2 rfl
    rw [← read_commands_fst] at hinv
    rcases hinv.1 with h1 | h1
    · rw [h1]
      exact hm
    · omega
  · intro st ms cc h0 h1
    unfold loop
    simp only []
    rw [if_neg h0, if_neg h1]
    rfl

/-- C9 (witness): the mode invariant at the initial state, and the
unknown-mode no-op at a state forced to mode 2. -/
theorem claim_C9_witness :
    (initState.mode = 0 ∨ initState.mode = 1) ∧
    loop { initState with mode := 2 } none 0 false =
      ({ initState with mode := 2 }, [], ["err: 0 Unknown mode"]) :=
  ⟨claim_C9.1 initState Relation.ReflTransGen.refl,
   claim_C9.2.2 { initState with mode := 2 } 0 false (by decide) (by decide)⟩

/-- C10: a line with no space tokenizes into the whole line as both verb
and argument; `toInt` of the non-numeric leftover is 0; hence the bare
setter line `sv` is accepted and stages voltage code 0. -/
theorem claim_C10 :
    (∀ s : String, (∀ c ∈ s.data, c ≠ ' ') → splitCommand s = (s, s)) ∧
    (strToInt "sv" = 0) ∧
    (∀ st : State, read_commands st "sv" = ({ st with voltage := 0 }, ["sv sv OK"])) :=
  ⟨splitCommand_no_space, by decide, fun _ => rfl⟩

/-- C10 (witness): the tokenization conjunct instantiated at the bare
line `sv`. -/
theorem claim_C10_witness : splitCommand "sv" = ("sv", "sv") :=
  claim_C10.1 "sv" (by decide)
